import Mathlib

/-!
Verification development for the AIIP MVP backend (gateway, ledger,
translator services). The Python services are shallowly embedded: each
HTTP handler becomes a pure Lean function over an explicit state, with
wall-clock times, generated UUIDs and freshly generated key pairs passed
in as parameters, and every outbound HTTP call of the gateway modelled by
an environment of collaborator functions whose results are either a
response with a status code or a raised exception. The Ed25519 primitives
of the external cryptography library are modelled symbolically: a
signature is a term recording the signing key and the signed payload, and
verification succeeds exactly when the public key matches the signer and
the payload matches the data.
-/

namespace AIIP

/-! Symbolic model of the external Ed25519 primitives. -/

/-- A private key, identified symbolically. -/
structure PrivKey where
  val : Nat
deriving DecidableEq

/-- A public key, identified symbolically. -/
structure PubKey where
  val : Nat
deriving DecidableEq

/-- The public key belonging to a private key (private_key.public_key()). -/
def pubOf (sk : PrivKey) : PubKey :=
  ⟨sk.val⟩

/-- A symbolic Ed25519 signature: records who signed what. -/
structure EdSig where
  signer : PrivKey
  payload : String
deriving DecidableEq

/-- Symbolic signing: private_key.sign(data). -/
def edSign (sk : PrivKey) (data : String) : EdSig :=
  ⟨sk, data⟩

/-- Symbolic verification: public_key.verify(sig, data) succeeds iff the
signature was produced over exactly this data by the private half of this
public key. -/
def edVerify (pk : PubKey) (s : EdSig) (data : String) : Bool :=
  if pubOf s.signer = pk ∧ s.payload = data then true else false

/-- A base64-encoded byte blob as it travels through the services: either
the encoding of a valid public key, private key or signature, or bytes
that decode to none of these (undecodable base64, wrong length, invalid
point). -/
inductive Blob where
  | pubB (k : PubKey)
  | privB (k : PrivKey)
  | sigB (s : EdSig)
  | garbage (n : Nat)
deriving DecidableEq

/-- Decoding a blob as an Ed25519 public key
(base64.b64decode + Ed25519PublicKey.from_public_bytes); fails on
anything that is not the encoding of a valid public key. -/
def decodePub : Blob → Option PubKey
  | .pubB k => some k
  | _ => none

/-- Decoding a blob as an Ed25519 private key. -/
def decodePriv : Blob → Option PrivKey
  | .privB k => some k
  | _ => none

/-- Decoding a blob as a signature. -/
def decodeSig : Blob → Option EdSig
  | .sigB s => some s
  | _ => none

/-- Symbolic SHA-256 hex digest (hashlib.sha256(data).hexdigest()); an
injective tag, since no claim depends on the digest's internal form. -/
def sha256Hex (s : String) : String :=
  "sha256:" ++ s

/-! Python dict operations, modelled on association lists: assignment
replaces the value of an existing key in place and otherwise appends. -/

/-- Dict lookup d.get(k) / d[k]: the value of the first (unique) matching
key. -/
def dictGet {α : Type} (m : List (String × α)) (k : String) : Option α :=
  match m with
  | [] => none
  | (k', v) :: rest => if k' = k then some v else dictGet rest k

/-- Dict assignment d[k] = v: replace in place if present, else append. -/
def dictSet {α : Type} (m : List (String × α)) (k : String) (v : α) : List (String × α) :=
  match m with
  | [] => [(k, v)]
  | (k', v') :: rest => if k' = k then (k, v) :: rest else (k', v') :: dictSet rest k v

/-! The ledger service (src/backend/ledger/main.py): in-memory state and
the handlers register_node, sign_data, verify_signature,
append_to_ledger. HTTP exceptions raised by a handler are modelled with
Except; handlers that cannot raise are total functions. -/

/-- HTTP errors a handler can raise (HTTPException status codes). -/
inductive HErr where
  | notFound (detail : String)
  | badRequest (detail : String)
  | serverError (detail : String)
  | unavailable (detail : String)
deriving DecidableEq

/-- Stored per-node key record (the node_keys dict values). -/
structure KeyInfo where
  public_key : Blob
  private_key : Option Blob
  registered_at : Nat
deriving DecidableEq

/-- A stored ledger entry, all fields as built by append_to_ledger. -/
structure LedgerEntryRec where
  entry_id : Nat
  data : String
  data_hash : String
  node_id : String
  signature : Option Blob
  verified : Bool
  timestamp : Nat
  block_height : Nat
deriving DecidableEq

/-- The ledger service's module-level mutable state: ledger_entries and
node_keys. -/
structure LedgerState where
  ledger_entries : List LedgerEntryRec
  node_keys : List (String × KeyInfo)
deriving DecidableEq

/-- The state at process start: both stores empty. -/
def initLedger : LedgerState :=
  ⟨[], []⟩

/-- Response body of POST /nodes/register. -/
structure RegisterResp where
  node_id : String
  public_key : Blob
  private_key : Option Blob
deriving DecidableEq

/-- Handler of POST /nodes/register: with a supplied public key, decode
it (400 on failure) and store it with no private half; otherwise store a
freshly generated key pair (the generated private key is the parameter
gen, standing for Ed25519PrivateKey.generate()). The node_keys dict
assignment overwrites any existing record for the node id. -/
def register_node (st : LedgerState) (now : Nat) (gen : PrivKey)
    (node_id : String) (public_key : Option Blob) :
    Except HErr (LedgerState × RegisterResp) :=
  match public_key with
  | some b =>
    match decodePub b with
    | none => .error (.badRequest "Invalid public key")
    | some pk =>
      .ok (⟨st.ledger_entries, dictSet st.node_keys node_id ⟨Blob.pubB pk, none, now⟩⟩,
           ⟨node_id, Blob.pubB pk, none⟩)
  | none =>
    .ok (⟨st.ledger_entries,
          dictSet st.node_keys node_id ⟨Blob.pubB (pubOf gen), some (Blob.privB gen), now⟩⟩,
         ⟨node_id, Blob.pubB (pubOf gen), some (Blob.privB gen)⟩)

/-- Response body of POST /sign. -/
structure SignResp where
  data : String
  signature : Blob
  node_id : String
deriving DecidableEq

/-- Handler of POST /sign: 404 when the node is unknown, 400 when it has
no stored private key, 500 when the stored private-key blob does not
decode; otherwise the Ed25519 signature over the data, base64-encoded. -/
def sign_data (st : LedgerState) (data : String) (node_id : String) :
    Except HErr SignResp :=
  match dictGet st.node_keys node_id with
  | none => .error (.notFound "Node not registered")
  | some ki =>
    match ki.private_key with
    | none => .error (.badRequest "Private key not available for this node")
    | some pb =>
      match decodePriv pb with
      | none => .error (.serverError "Signing failed")
      | some sk => .ok ⟨data, Blob.sigB (edSign sk data), node_id⟩

/-- The try-block of signature checking shared by /verify and
/ledger/append: decode the stored public key and the signature and run
Ed25519 verification; any failure yields false. -/
def tryVerify (pub_blob : Blob) (sig_blob : Blob) (data : String) : Bool :=
  match decodePub pub_blob, decodeSig sig_blob with
  | some pk, some s => edVerify pk s data
  | _, _ => false

/-- Handler of POST /verify: 404 when the node is unknown; otherwise
never raises and returns the boolean verification result. -/
def verify_signature (st : LedgerState) (data : String) (signature : Blob)
    (node_id : String) : Except HErr Bool :=
  match dictGet st.node_keys node_id with
  | none => .error (.notFound "Node not registered")
  | some ki => .ok (tryVerify ki.public_key signature data)

/-- The verified flag computed by append_to_ledger: false unless a
signature is present, the node is known, and the try-block verification
succeeds. -/
def appendVerified (st : LedgerState) (data : String) (node_id : String)
    (signature : Option Blob) : Bool :=
  match signature with
  | none => false
  | some sb =>
    match dictGet st.node_keys node_id with
    | none => false
    | some ki => tryVerify ki.public_key sb data

/-- Response body of POST /ledger/append. -/
structure AppendResp where
  entry_id : Nat
  block_height : Nat
  verified : Bool
  data_hash : String
deriving DecidableEq

/-- Handler of POST /ledger/append: computes the verified flag (never
raising), builds the entry with block_height = len(ledger_entries) and a
fresh uuid (parameter fresh), appends it, and returns the summary. This
handler is total: it has no failure path. -/
def append_to_ledger (st : LedgerState) (now : Nat) (fresh : Nat)
    (data : String) (node_id : String) (signature : Option Blob) :
    LedgerState × AppendResp :=
  let v := appendVerified st data node_id signature
  let e : LedgerEntryRec :=
    ⟨fresh, data, sha256Hex data, node_id, signature, v, now, st.ledger_entries.length⟩
  (⟨st.ledger_entries ++ [e], st.node_keys⟩, ⟨fresh, st.ledger_entries.length, v, sha256Hex data⟩)

/-- One state-affecting (or state-reading) operation of the ledger
service. The read-only handlers sign and verify are included to witness
that they leave the state untouched; the GET handlers do not appear as
they read the state only. -/
inductive LedgerOp where
  | register (now : Nat) (gen : PrivKey) (node_id : String) (public_key : Option Blob)
  | append (now : Nat) (fresh : Nat) (data : String) (node_id : String)
      (signature : Option Blob)
  | signOp (data : String) (node_id : String)
  | verifyOp (data : String) (signature : Blob) (node_id : String)

/-- State transition of one ledger-service operation; a raising handler
leaves the state unchanged. -/
def ledgerStep (st : LedgerState) (op : LedgerOp) : LedgerState :=
  match op with
  | .register now gen nid pk =>
    match register_node st now gen nid pk with
    | .ok (st', _) => st'
    | .error _ => st
  | .append now fresh data nid sig => (append_to_ledger st now fresh data nid sig).1
  | .signOp _ _ => st
  | .verifyOp _ _ _ => st

/-- Run a sequence of ledger-service operations from process start. -/
def runLedger (ops : List LedgerOp) : LedgerState :=
  ops.foldl ledgerStep initLedger

/-! The translator service (src/backend/translator/main.py): schema
mappings and the transform_data handler. JSON object payloads are
modelled as association lists of string fields (value structure is
irrelevant to every claim, so values are strings). -/

/-- A JSON object payload: field names to values. -/
abbrev JObj := List (String × String)

/-- A registered schema mapping (the schema_mappings dict values, in
insertion order); mapping_rules maps target field to source field. -/
structure SchemaMappingRec where
  mapping_id : Nat
  source_schema : String
  target_schema : String
  mapping_rules : List (String × String)
  created_at : Nat
deriving DecidableEq

/-- The lookup loop of transform_data: the first registered mapping whose
source and target schemas both match. -/
def findMapping (ms : List SchemaMappingRec) (ss ts : String) : Option SchemaMappingRec :=
  match ms with
  | [] => none
  | m :: rest =>
    if m.source_schema = ss ∧ m.target_schema = ts then some m else findMapping rest ss ts

/-- The transformation loop of transform_data: for each
(target_field, source_field) rule in order, copy data[source_field] into
the output under target_field when the source field is present, else
skip the rule. -/
def applyRules (data : JObj) (rules : List (String × String)) (acc : JObj) : JObj :=
  match rules with
  | [] => acc
  | r :: rest =>
    applyRules data rest
      (match dictGet data r.2 with
       | some v => dictSet acc r.1 v
       | none => acc)

/-- Handler of POST /transform: 404 when no mapping matches the schema
pair, otherwise the rule-by-rule best-effort projection of the data,
together with the mapping id. -/
def transform_data (ms : List SchemaMappingRec) (data : JObj) (ss ts : String) :
    Except HErr (JObj × Nat) :=
  match findMapping ms ss ts with
  | none => .error (.notFound "Schema mapping not found")
  | some m => .ok (applyRules data m.mapping_rules [], m.mapping_id)

/-! The gateway service (src/backend/gateway/main.py). Its outbound HTTP
calls are modelled by an environment of collaborator functions; a call
either raises (the httpx request failing) or returns a response with a
status code and a typed body. -/

/-- Result of one outbound HTTP call: the request itself raising an
exception with a message, or a response with a status code and body. -/
inductive CallResult (α : Type) where
  | exn (msg : String)
  | resp (status : Nat) (body : α)

/-- Body of a translator /transform response, as read by the gateway. -/
structure TransformRespBody where
  transformed_data : JObj
deriving DecidableEq

/-- Body of a ledger /sign response, as read by the gateway. -/
structure SignRespBody where
  signature : Blob
deriving DecidableEq

/-- Body of a ledger /ledger/append response, as read by the gateway. -/
structure AppendRespBody where
  entry_id : Nat
deriving DecidableEq

/-- Body of a ledger /nodes/register response as read by the gateway via
.get, which yields none for an absent field. -/
structure LRegRespBody where
  public_key : Option Blob
  private_key : Option Blob
deriving DecidableEq

/-- The gateway's collaborator environment: one function per outbound
call site, each taking the request content the gateway sends. -/
structure GEnv where
  transform : JObj → String → String → CallResult TransformRespBody
  sign : String → String → CallResult SignRespBody
  append : String → String → Option Blob → CallResult AppendRespBody
  telemetry : String → Nat → CallResult Unit
  lregister : String → CallResult LRegRespBody

/-- A node record stored by the gateway in registered_nodes. -/
structure GNode where
  node_id : String
  node_type : String
  capabilities : List String
  endpoint : Option String
  public_key : Option Blob
  private_key : Option Blob
  registered_at : Nat
  status : String
deriving DecidableEq

/-- Status of a tracked message. -/
inductive MStatus where
  | processing
  | completed
  | failed
deriving DecidableEq

/-- One recorded pipeline step ledger_entry_id is set only on the
commit_ledger step. -/
structure Step where
  step : String
  step_status : String
  timestamp : Nat
  step_entry_id : Option Nat
deriving DecidableEq

/-- A tracked message entry as appended to message_queue; optional
fields model dict keys that are set on only one of the outcome paths. -/
structure MessageEntry where
  mid : Nat
  hash : String
  from_node : String
  to_node : String
  message_type : String
  data : JObj
  schema : Option String
  status : MStatus
  created_at : Nat
  steps : List Step
  transformed_data : Option JObj
  signature : Option Blob
  ledger_entry_id : Option Nat
  error : Option String
  completed_at : Option Nat
  failed_at : Option Nat
deriving DecidableEq

/-- The gateway's module-level mutable state. -/
structure GatewayState where
  registered_nodes : List (String × GNode)
  message_queue : List MessageEntry
  routing_table : List (String × List String)
deriving DecidableEq

/-- A submitted message (the Message model). -/
structure GMessage where
  from_node : String
  to_node : String
  message_type : String
  data : JObj
  schema : Option String
deriving DecidableEq

/-- Canonical serialization of a JSON object
(json.dumps(obj, sort_keys=True)); deterministic in the model. -/
def canonJObj (o : JObj) : String :=
  o.foldl (fun acc kv => acc ++ "|" ++ kv.1 ++ ":" ++ kv.2) "obj"

/-- Canonical serialization of a Message
(json.dumps(message.dict(), sort_keys=True)). -/
def canonMessage (m : GMessage) : String :=
  "data=" ++ canonJObj m.data ++ ";from_node=" ++ m.from_node ++
  ";message_type=" ++ m.message_type ++
  ";schema=" ++ (match m.schema with | none => "null" | some s => s) ++
  ";to_node=" ++ m.to_node

/-- Canonical serialization of the bundle committed to the ledger
(json.dumps(ledger_data, sort_keys=True)). -/
def canonLedgerData (mid : Nat) (from_node to_node mtype mhash : String) (td : JObj) : String :=
  "from_node=" ++ from_node ++ ";hash=" ++ mhash ++ ";message_id=" ++ toString mid ++
  ";message_type=" ++ mtype ++ ";to_node=" ++ to_node ++
  ";transformed_data=" ++ canonJObj td

/-- Errors a gateway handler run can surface: an HTTPException it raises
deliberately, or the NameError raised while building the /messages/send
response when the local variable ledger_entry_id was never bound (the
try-block failed before line 181 of the handler). -/
inductive GwErr where
  | http (e : HErr)
  | nameError
deriving DecidableEq

/-- Response body of gateway POST /nodes/register. -/
structure GwRegResp where
  node_id : String
  reg_status : String
  public_key : Option Blob
  private_key : Option Blob
deriving DecidableEq

/-- Handler of gateway POST /nodes/register: forwards registration to
the ledger service (503 when that call raises; the response status code
is not checked), then stores the node — including the public and private
key fields of the ledger's response — and extends the routing table, and
returns the keys to the caller. -/
def gw_register_node (env : GEnv) (st : GatewayState) (now : Nat)
    (node_id node_type : String) (capabilities : List String)
    (endpoint : Option String) : GatewayState × Except GwErr GwRegResp :=
  match env.lregister node_id with
  | .exn msg => (st, .error (.http (.unavailable ("Ledger service unavailable: " ++ msg))))
  | .resp _ body =>
    let node : GNode :=
      ⟨node_id, node_type, capabilities, endpoint, body.public_key, body.private_key,
       now, "active"⟩
    let rt := capabilities.foldl
      (fun acc c =>
        match dictGet acc c with
        | none => dictSet acc c [node_id]
        | some l => dictSet acc c (l ++ [node_id])) st.routing_table
    (⟨dictSet st.registered_nodes node_id node, st.message_queue, rt⟩,
     .ok ⟨node_id, "registered", body.public_key, body.private_key⟩)

/-- Outcome of the try-block of /messages/send: success with the final
transformed data, signature and ledger entry id, or a raised exception
with its message, tagging whether the local ledger_entry_id was already
bound (some value, bound at the start of the commit stage) or not yet
(none, exception in the transform or sign stage). -/
inductive PipeRes where
  | ok (td : JObj) (sig : Option Blob) (leid : Option Nat)
  | err (msg : String) (leidBound : Option (Option Nat))
deriving DecidableEq

/-- Step 1 of the try-block: transform when both a target schema and the
message's source schema are present; a non-200 response is skipped with
no step recorded; the call raising aborts the try-block. -/
def transformStage (env : GEnv) (now : Nat) (m : GMessage) (ts? : Option String) :
    Except String (List Step × JObj) :=
  match ts?, m.schema with
  | some ts, some ss =>
    match env.transform m.data ss ts with
    | .exn msg => .error msg
    | .resp code body =>
      if code = 200 then .ok ([⟨"transform", "completed", now, none⟩], body.transformed_data)
      else .ok ([], m.data)
  | _, _ => .ok ([], m.data)

/-- Step 2 of the try-block: sign when the sender node has a stored
private key; a non-200 response leaves the message unsigned with no step
recorded; the call raising aborts the try-block. -/
def signStage (env : GEnv) (now : Nat) (from_node : String) (sender : GNode)
    (td : JObj) : Except String (List Step × Option Blob) :=
  match sender.private_key with
  | none => .ok ([], none)
  | some _ =>
    match env.sign (canonJObj td) from_node with
    | .exn msg => .error msg
    | .resp code body =>
      if code = 200 then .ok ([⟨"sign", "completed", now, none⟩], some body.signature)
      else .ok ([], none)

/-- Step 3 of the try-block: append to the ledger when commitment was
requested; a non-200 response records no step and leaves the entry id
none; the call raising aborts the try-block. -/
def commitStage (env : GEnv) (now mid : Nat) (m : GMessage) (mhash : String)
    (td : JObj) (sig : Option Blob) (commit : Bool) :
    Except String (List Step × Option Nat) :=
  if commit then
    match env.append (canonLedgerData mid m.from_node m.to_node m.message_type mhash td)
        m.from_node sig with
    | .exn msg => .error msg
    | .resp code body =>
      if code = 200 then
        .ok ([⟨"commit_ledger", "completed", now, some body.entry_id⟩], some body.entry_id)
      else .ok ([], none)
  else .ok ([], none)

/-- Step 4 of the try-block: the telemetry call; its response status is
never inspected, only the call raising aborts the try-block. -/
def notifyStage (env : GEnv) (from_node : String) (mid : Nat) : Except String Unit :=
  match env.telemetry from_node mid with
  | .exn msg => .error msg
  | .resp _ _ => .ok ()

/-- The whole try-block of /messages/send, accumulating the recorded
steps; on an exception the steps recorded before it are kept, and the
err result records whether the local ledger_entry_id was bound when the
exception was raised. -/
def pipeTry (env : GEnv) (now mid : Nat) (m : GMessage) (sender : GNode)
    (ts? : Option String) (commit : Bool) (mhash : String) : List Step × PipeRes :=
  match transformStage env now m ts? with
  | .error e => ([], .err e none)
  | .ok (s1, td) =>
    match signStage env now m.from_node sender td with
    | .error e => (s1, .err e none)
    | .ok (s2, sig) =>
      match commitStage env now mid m mhash td sig commit with
      | .error e => (s1 ++ s2, .err e (some none))
      | .ok (s3, leid) =>
        match notifyStage env m.from_node mid with
        | .error e => (s1 ++ s2 ++ s3, .err e (some leid))
        | .ok _ => (s1 ++ s2 ++ s3, .ok td sig leid)

/-- Response body of gateway POST /messages/send. -/
structure SendResp where
  message_id : Nat
  send_status : MStatus
  hash : String
  steps : List Step
  ledger_entry_id : Option Nat
deriving DecidableEq

/-- Handler of gateway POST /messages/send: reject with 404 before
creating any entry when the from or to node is unregistered; otherwise
run the try-block, append the resulting completed or failed entry to
message_queue, and build the response — which raises NameError when the
try-block died before binding ledger_entry_id. The state component is
always the state after the handler, whether or not it raised. -/
def send_message (env : GEnv) (st : GatewayState) (now mid : Nat)
    (m : GMessage) (ts? : Option String) (commit : Bool) :
    GatewayState × Except GwErr SendResp :=
  match dictGet st.registered_nodes m.from_node with
  | none => (st, .error (.http (.notFound "From node not registered")))
  | some sender =>
    match dictGet st.registered_nodes m.to_node with
    | none => (st, .error (.http (.notFound "To node not registered")))
    | some _ =>
      let mhash := sha256Hex (canonMessage m)
      let pr := pipeTry env now mid m sender ts? commit mhash
      let entry : MessageEntry :=
        match pr.2 with
        | .ok td sig leid =>
          ⟨mid, mhash, m.from_node, m.to_node, m.message_type, m.data, m.schema,
           .completed, now, pr.1, some td, sig, leid, none, some now, none⟩
        | .err e _ =>
          ⟨mid, mhash, m.from_node, m.to_node, m.message_type, m.data, m.schema,
           .failed, now, pr.1, none, none, none, some e, none, some now⟩
      let st' : GatewayState :=
        ⟨st.registered_nodes, st.message_queue ++ [entry], st.routing_table⟩
      match pr.2 with
      | .ok _ _ leid => (st', .ok ⟨mid, .completed, mhash, pr.1, leid⟩)
      | .err _ none => (st', .error .nameError)
      | .err _ (some leid) => (st', .ok ⟨mid, .failed, mhash, pr.1, leid⟩)

/-! Invariant predicates and concrete fixtures used by the theorems. -/

/-- The heights invariant of the ledger: the stored block heights read,
in storage order, exactly 0, 1, ..., N-1. -/
def heightsOK (st : LedgerState) : Prop :=
  st.ledger_entries.map LedgerEntryRec.block_height = List.range st.ledger_entries.length

/-- The key-consistency invariant of the custodian: whenever a stored
record holds a private-key blob, that blob decodes to a private key whose
public half is exactly the stored public-key blob (true of every record
register_node ever writes). -/
def wellKeyed (st : LedgerState) : Prop :=
  ∀ nid ki pb, dictGet st.node_keys nid = some ki → ki.private_key = some pb →
    ∃ sk, pb = Blob.privB sk ∧ ki.public_key = Blob.pubB (pubOf sk)

/-- A gateway state with the sender node's stored private-key blob
replaced by another blob, all else equal. -/
def withSenderKey (st : GatewayState) (nid : String) (n : GNode) (b' : Blob) : GatewayState :=
  ⟨dictSet st.registered_nodes nid
     ⟨n.node_id, n.node_type, n.capabilities, n.endpoint, n.public_key, some b',
      n.registered_at, n.status⟩,
   st.message_queue, st.routing_table⟩

/-- Fixture: a sender node holding a private key. -/
def nodeA : GNode :=
  ⟨"a", "ai", [], none, some (Blob.pubB ⟨0⟩), some (Blob.privB ⟨0⟩), 0, "active"⟩

/-- Fixture: a receiver node without a private key. -/
def nodeB : GNode :=
  ⟨"b", "ai", [], none, some (Blob.pubB ⟨1⟩), none, 0, "active"⟩

/-- Fixture: gateway state with nodes a and b registered. -/
def gstAB : GatewayState :=
  ⟨[("a", nodeA), ("b", nodeB)], [], []⟩

/-- Fixture: a message from a to b carrying one field, with a source
schema. -/
def msgAB : GMessage :=
  ⟨"a", "b", "t", [("k", "v")], some "s1"⟩

/-- Fixture environment: every collaborator call succeeds with a 200
response. -/
def envOk : GEnv :=
  ⟨fun _ _ _ => .resp 200 ⟨[]⟩,
   fun _ _ => .resp 200 ⟨Blob.sigB ⟨⟨0⟩, "x"⟩⟩,
   fun _ _ _ => .resp 200 ⟨7⟩,
   fun _ _ => .resp 200 (),
   fun _ => .resp 200 ⟨none, none⟩⟩

/-- Fixture environment: the transform call itself raises; every other
call succeeds. -/
def envTransformExn : GEnv :=
  ⟨fun _ _ _ => .exn "transform down",
   fun _ _ => .resp 200 ⟨Blob.sigB ⟨⟨0⟩, "x"⟩⟩,
   fun _ _ _ => .resp 200 ⟨7⟩,
   fun _ _ => .resp 200 (),
   fun _ => .resp 200 ⟨none, none⟩⟩

/-- Fixture environment: the ledger append call returns a 500 error
response; every other call succeeds. -/
def envAppend500 : GEnv :=
  ⟨fun _ _ _ => .resp 404 ⟨[]⟩,
   fun _ _ => .resp 200 ⟨Blob.sigB ⟨⟨0⟩, "x"⟩⟩,
   fun _ _ _ => .resp 500 ⟨0⟩,
   fun _ _ => .resp 200 (),
   fun _ => .resp 200 ⟨none, none⟩⟩

/-- Fixture environment: the ledger append call itself raises; every
other call succeeds. -/
def envAppendExn : GEnv :=
  ⟨fun _ _ _ => .resp 404 ⟨[]⟩,
   fun _ _ => .resp 200 ⟨Blob.sigB ⟨⟨0⟩, "x"⟩⟩,
   fun _ _ _ => .exn "ledger down",
   fun _ _ => .resp 200 (),
   fun _ => .resp 200 ⟨none, none⟩⟩

/-- Fixture environment: transform, sign and telemetry all return error
responses (404, 500, 500); the calls themselves do not raise. -/
def envResp500 : GEnv :=
  ⟨fun _ _ _ => .resp 404 ⟨[]⟩,
   fun _ _ => .resp 500 ⟨Blob.garbage 0⟩,
   fun _ _ _ => .resp 200 ⟨0⟩,
   fun _ _ => .resp 500 (),
   fun _ => .resp 200 ⟨none, none⟩⟩

/-- Fixture environment: the ledger registration response carries a full
key pair, as the ledger's generate path produces. -/
def envKeyLeak : GEnv :=
  ⟨fun _ _ _ => .resp 200 ⟨[]⟩,
   fun _ _ => .resp 200 ⟨Blob.sigB ⟨⟨0⟩, "x"⟩⟩,
   fun _ _ _ => .resp 200 ⟨0⟩,
   fun _ _ => .resp 200 (),
   fun _ => .resp 200 ⟨some (Blob.pubB ⟨0⟩), some (Blob.privB ⟨0⟩)⟩⟩

/-- Fixture: ledger state with node a registered via the generate path. -/
def lstA : LedgerState :=
  ⟨[], [("a", ⟨Blob.pubB ⟨0⟩, some (Blob.privB ⟨0⟩), 0⟩)]⟩

/-- Fixture: one register operation via the generate path. -/
def opsW : List LedgerOp :=
  [.register 0 ⟨0⟩ "a" none]

/-- Fixture: one schema mapping from s1 to s2 renaming sf to tf. -/
def mapW : SchemaMappingRec :=
  ⟨1, "s1", "s2", [("tf", "sf")], 0⟩

/-! Helper lemmas. -/

theorem dictGet_dictSet_self {α : Type} (m : List (String × α)) (k : String) (v : α) :
    dictGet (dictSet m k v) k = some v := by
  induction m with
  | nil => simp [dictGet, dictSet]
  | cons hd tl ih =>
    obtain ⟨k', v'⟩ := hd
    by_cases h : k' = k
    · simp [dictGet, dictSet, h]
    · simp [dictGet, dictSet, h, ih]

theorem dictGet_dictSet_ne {α : Type} (m : List (String × α)) (k k' : String) (v : α)
    (h : k' ≠ k) : dictGet (dictSet m k v) k' = dictGet m k' := by
  have h' : ¬(k = k') := fun hh => h hh.symm
  induction m with
  | nil => simp [dictGet, dictSet, h']
  | cons hd tl ih =>
    obtain ⟨k0, v0⟩ := hd
    by_cases hk : k0 = k
    · subst hk
      simp [dictGet, dictSet, h']
    · simp [dictGet, dictSet, hk, ih]

theorem heightsOK_ledgerStep (st : LedgerState) (op : LedgerOp) (h : heightsOK st) :
    heightsOK (ledgerStep st op) := by
  cases op with
  | register now gen nid pk =>
    cases pk with
    | none => exact h
    | some b =>
      cases hb : decodePub b with
      | none => simpa [ledgerStep, register_node, hb] using h
      | some k => simpa [ledgerStep, register_node, hb] using h
  | append now fresh data nid sig =>
    simp only [heightsOK, ledgerStep, append_to_ledger] at h ⊢
    simpa [List.range_succ] using h
  | signOp data nid => exact h
  | verifyOp data sig nid => exact h

theorem heightsOK_foldl (ops : List LedgerOp) (st : LedgerState) (h : heightsOK st) :
    heightsOK (ops.foldl ledgerStep st) := by
  induction ops generalizing st with
  | nil => simpa using h
  | cons op rest ih => exact ih _ (heightsOK_ledgerStep st op h)

/-- C1: the N-th appended ledger entry is assigned blockHeight N-1 (the
entry count at append time), so after any sequence of ledger-service
operations the stored blockHeights are exactly 0..N-1 in storage order,
strictly increasing with no duplicates and no gaps; and every operation
leaves all previously stored entries in place unmodified, only appending
to the sequence. -/
theorem ledger_heights_gapless_append_only :
    (∀ ops : List LedgerOp,
        (runLedger ops).ledger_entries.map LedgerEntryRec.block_height
          = List.range (runLedger ops).ledger_entries.length)
    ∧ ∀ (st : LedgerState) (op : LedgerOp),
        ∃ t, (ledgerStep st op).ledger_entries = st.ledger_entries ++ t := by
  constructor
  · intro ops
    exact heightsOK_foldl ops initLedger rfl
  · intro st op
    cases op with
    | register now gen nid pk =>
      cases pk with
      | none => exact ⟨[], by simp [ledgerStep, register_node]⟩
      | some b =>
        cases hb : decodePub b with
        | none => exact ⟨[], by simp [ledgerStep, register_node, hb]⟩
        | some k => exact ⟨[], by simp [ledgerStep, register_node, hb]⟩
    | append now fresh data nid sig => exact ⟨_, rfl⟩
    | signOp data nid => exact ⟨[], by simp [ledgerStep]⟩
    | verifyOp data sig nid => exact ⟨[], by simp [ledgerStep]⟩

/-- C2: ledger append always succeeds and stores a fully populated entry
echoed in the response, whatever the signature: a missing signature, an
undecodable one, or one failing cryptographic verification never causes a
rejection or a raised error (the handler is a total function), it only
leaves the entry's verified flag false. -/
theorem ledger_append_never_rejects :
    ∀ (st : LedgerState) (now fresh : Nat) (data nid : String) (sig : Option Blob),
      ∃ e : LedgerEntryRec,
        (append_to_ledger st now fresh data nid sig).1.ledger_entries
            = st.ledger_entries ++ [e]
        ∧ e.entry_id = fresh ∧ e.data = data ∧ e.node_id = nid ∧ e.signature = sig
        ∧ e.data_hash = sha256Hex data ∧ e.timestamp = now
        ∧ e.block_height = st.ledger_entries.length
        ∧ (append_to_ledger st now fresh data nid sig).2
            = ⟨fresh, st.ledger_entries.length, e.verified, sha256Hex data⟩
        ∧ (sig = none → e.verified = false)
        ∧ ∀ sb, sig = some sb →
            (∀ ki, dictGet st.node_keys nid = some ki →
               tryVerify ki.public_key sb data = false) →
            e.verified = false := by
  intro st now fresh data nid sig
  refine ⟨_, rfl, rfl, rfl, rfl, rfl, rfl, rfl, rfl, rfl, ?_, ?_⟩
  · intro h
    subst h
    rfl
  · intro sb hsb hall
    subst hsb
    show appendVerified st data nid (some sb) = false
    unfold appendVerified
    cases hk : dictGet st.node_keys nid with
    | none => rfl
    | some ki => exact hall ki hk

/-- Witness for C2 at a concrete input: appending to the empty ledger
with no signature succeeds and stores an unverified entry. -/
theorem ledger_append_never_rejects_witness :
    ∃ e : LedgerEntryRec,
      (append_to_ledger initLedger 0 0 "d" "n" none).1.ledger_entries = [e]
      ∧ e.verified = false := by
  obtain ⟨e, h1, _, _, _, _, _, _, _, _, h10, _⟩ :=
    ledger_append_never_rejects initLedger 0 0 "d" "n" none
  exact ⟨e, by simpa [initLedger] using h1, h10 rfl⟩

/-- C10: ledger append never fails with NodeUnknown: for a node id never
registered with the custodian, append still succeeds and stores the
entry with verified = false even when a signature is supplied — the
node-existence check of sign and verify is not applied at append time. -/
theorem ledger_append_unknown_node :
    ∀ (st : LedgerState) (now fresh : Nat) (data nid : String) (sig : Option Blob),
      dictGet st.node_keys nid = none →
      ∃ e : LedgerEntryRec,
        (append_to_ledger st now fresh data nid sig).1.ledger_entries
            = st.ledger_entries ++ [e]
        ∧ e.verified = false ∧ e.signature = sig ∧ e.data = data ∧ e.node_id = nid := by
  intro st now fresh data nid sig h
  refine ⟨_, rfl, ?_, rfl, rfl, rfl⟩
  show appendVerified st data nid sig = false
  cases sig with
  | none => rfl
  | some sb => simp [appendVerified, h]

/-- Witness for C10 at a concrete input: an unregistered node id with a
supplied signature still yields a stored, unverified entry. -/
theorem ledger_append_unknown_node_witness :
    ∃ e : LedgerEntryRec,
      (append_to_ledger initLedger 0 0 "d" "n"
          (some (Blob.sigB ⟨⟨0⟩, "d"⟩))).1.ledger_entries
        = initLedger.ledger_entries ++ [e]
      ∧ e.verified = false ∧ e.signature = some (Blob.sigB ⟨⟨0⟩, "d"⟩)
      ∧ e.data = "d" ∧ e.node_id = "n" :=
  ledger_append_unknown_node initLedger 0 0 "d" "n" (some (Blob.sigB ⟨⟨0⟩, "d"⟩)) rfl

theorem wellKeyed_ledgerStep (st : LedgerState) (op : LedgerOp) (h : wellKeyed st) :
    wellKeyed (ledgerStep st op) := by
  cases op with
  | register now gen nid pk =>
    cases pk with
    | none =>
      intro nid' ki pb hget hpriv
      simp only [ledgerStep, register_node] at hget
      by_cases hn : nid' = nid
      · subst hn
        rw [dictGet_dictSet_self] at hget
        cases hget
        cases hpriv
        exact ⟨gen, rfl, rfl⟩
      · rw [dictGet_dictSet_ne _ _ _ _ hn] at hget
        exact h nid' ki pb hget hpriv
    | some b =>
      cases hb : decodePub b with
      | none =>
        intro nid' ki pb hget hpriv
        simp only [ledgerStep, register_node, hb] at hget
        exact h nid' ki pb hget hpriv
      | some k =>
        intro nid' ki pb hget hpriv
        simp only [ledgerStep, register_node, hb] at hget
        by_cases hn : nid' = nid
        · subst hn
          rw [dictGet_dictSet_self] at hget
          cases hget
          cases hpriv
        · rw [dictGet_dictSet_ne _ _ _ _ hn] at hget
          exact h nid' ki pb hget hpriv
  | append now fresh data nid sig => exact h
  | signOp data nid => exact h
  | verifyOp data sig nid => exact h

theorem wellKeyed_foldl (ops : List LedgerOp) (st : LedgerState) (h : wellKeyed st) :
    wellKeyed (ops.foldl ledgerStep st) := by
  induction ops generalizing st with
  | nil => simpa using h
  | cons op rest ih => exact ih _ (wellKeyed_ledgerStep st op h)

theorem wellKeyed_runLedger (ops : List LedgerOp) : wellKeyed (runLedger ops) := by
  apply wellKeyed_foldl
  intro nid ki pb hget _
  cases hget

/-- C5: in any ledger-service state reachable from process start, for
every registered node holding a stored private key and every data
string, signing the data and appending with the produced signature —
append(data, nodeId, sign(nodeId, data)) — succeeds and yields an entry
with verified = true, echoed in the response. -/
theorem sign_append_roundtrip_verified :
    ∀ (ops : List LedgerOp) (data : String) (now fresh : Nat) (nid : String)
      (ki : KeyInfo) (pb : Blob),
      dictGet (runLedger ops).node_keys nid = some ki →
      ki.private_key = some pb →
      ∃ sr : SignResp,
        sign_data (runLedger ops) data nid = .ok sr
        ∧ (append_to_ledger (runLedger ops) now fresh data nid
             (some sr.signature)).2.verified = true
        ∧ ∃ e, (append_to_ledger (runLedger ops) now fresh data nid
                  (some sr.signature)).1.ledger_entries
                 = (runLedger ops).ledger_entries ++ [e]
            ∧ e.verified = true := by
  intro ops data now fresh nid ki pb hget hpriv
  obtain ⟨sk, hpb, hpub⟩ := wellKeyed_runLedger ops nid ki pb hget hpriv
  subst hpb
  refine ⟨⟨data, Blob.sigB (edSign sk data), nid⟩, ?_, ?_, ⟨_, rfl, ?_⟩⟩
  · simp [sign_data, hget, hpriv, decodePriv]
  · simp [append_to_ledger, appendVerified, hget, hpub, tryVerify, decodePub, decodeSig,
      edVerify, edSign]
  · show appendVerified (runLedger ops) data nid (some (Blob.sigB (edSign sk data))) = true
    simp [appendVerified, hget, hpub, tryVerify, decodePub, decodeSig, edVerify, edSign]

/-- Witness for C5 at a concrete input: after registering node a via the
generate path, sign-then-append over data d verifies. -/
theorem sign_append_roundtrip_verified_witness :
    ∃ sr : SignResp,
      sign_data (runLedger opsW) "d" "a" = .ok sr
      ∧ (append_to_ledger (runLedger opsW) 1 2 "d" "a"
           (some sr.signature)).2.verified = true
      ∧ ∃ e, (append_to_ledger (runLedger opsW) 1 2 "d" "a"
                (some sr.signature)).1.ledger_entries
               = (runLedger opsW).ledger_entries ++ [e]
          ∧ e.verified = true :=
  sign_append_roundtrip_verified opsW "d" 1 2 "a"
    ⟨Blob.pubB ⟨0⟩, some (Blob.privB ⟨0⟩), 0⟩ (Blob.privB ⟨0⟩) rfl rfl

/-- C6: a message whose from node or to node is not registered with the
gateway is rejected with a 404 before any MessageEntry is created: the
handler returns the state completely unchanged together with the
not-found error, so nothing was appended to the message history and no
other state changed. -/
theorem send_message_rejects_unregistered :
    ∀ (env : GEnv) (st : GatewayState) (now mid : Nat) (m : GMessage)
      (ts? : Option String) (commit : Bool),
      dictGet st.registered_nodes m.from_node = none ∨
        dictGet st.registered_nodes m.to_node = none →
      ∃ d, send_message env st now mid m ts? commit
             = (st, .error (.http (.notFound d))) := by
  intro env st now mid m ts? commit h
  cases hf : dictGet st.registered_nodes m.from_node with
  | none => exact ⟨"From node not registered", by simp [send_message, hf]⟩
  | some sender =>
    cases ht : dictGet st.registered_nodes m.to_node with
    | none => exact ⟨"To node not registered", by simp [send_message, hf, ht]⟩
    | some r =>
      cases h with
      | inl h' => rw [hf] at h'; cases h'
      | inr h' => rw [ht] at h'; cases h'

/-- Witness for C6 at a concrete input: submitting on an empty gateway is
rejected with state unchanged. -/
theorem send_message_rejects_unregistered_witness :
    ∃ d, send_message envOk ⟨[], [], []⟩ 0 0 msgAB none true
           = (⟨[], [], []⟩, .error (.http (.notFound d))) :=
  send_message_rejects_unregistered envOk ⟨[], [], []⟩ 0 0 msgAB none true (Or.inl rfl)

theorem dictGet_eq_none_of_notMem {α : Type} (m : List (String × α)) (k : String)
    (h : k ∉ m.map Prod.fst) : dictGet m k = none := by
  induction m with
  | nil => rfl
  | cons hd tl ih =>
    obtain ⟨k0, v0⟩ := hd
    simp only [List.map_cons, List.mem_cons] at h
    push_neg at h
    simp only [dictGet]
    rw [if_neg fun hh => h.1 hh.symm, ih h.2]

theorem dictGet_applyRules (data : JObj) (rules : List (String × String)) (acc : JObj)
    (t : String) (hnd : (rules.map Prod.fst).Nodup) :
    dictGet (applyRules data rules acc) t =
      match (dictGet rules t).bind (dictGet data) with
      | some v => some v
      | none => dictGet acc t := by
  induction rules generalizing acc with
  | nil => rfl
  | cons r rest ih =>
    obtain ⟨t0, s0⟩ := r
    rw [List.map_cons, List.nodup_cons] at hnd
    by_cases he : t0 = t
    · subst he
      have hrest : dictGet rest t0 = none := dictGet_eq_none_of_notMem rest t0 hnd.1
      simp only [applyRules, dictGet, if_pos rfl]
      cases hd : dictGet data s0 with
      | none =>
        rw [ih acc hnd.2, hrest]
        simp [hd]
      | some v =>
        rw [ih _ hnd.2, hrest]
        simp only [Option.bind]
        rw [dictGet_dictSet_self]
        simp [hd]
    · simp only [applyRules, dictGet, if_neg he]
      cases hd : dictGet data s0 with
      | none => rw [ih acc hnd.2]
      | some v =>
        rw [ih _ hnd.2]
        cases hr : (dictGet rest t).bind (dictGet data) with
        | some w => rfl
        | none =>
          simp only []
          exact dictGet_dictSet_ne acc t0 t v fun hh => he hh.symm

theorem findMapping_eq_none (ms : List SchemaMappingRec) (ss ts : String)
    (h : ∀ m ∈ ms, ¬(m.source_schema = ss ∧ m.target_schema = ts)) :
    findMapping ms ss ts = none := by
  induction ms with
  | nil => rfl
  | cons m rest ih =>
    simp only [findMapping]
    rw [if_neg (h m (by simp))]
    exact ih fun m' hm' => h m' (by simp [hm'])

/-- C7: transform fails with the mapping-not-found error exactly when no
mapping is registered for the (sourceSchema, targetSchema) pair;
otherwise, with the first matching mapping, the output holds
data[sourceField] under targetField for each rule exactly when the
source field is present in the data, holds no other keys, and absent
source fields are dropped silently without error. -/
theorem transform_data_correct :
    ∀ (ms : List SchemaMappingRec) (data : JObj) (ss ts : String),
      ((∀ m ∈ ms, ¬(m.source_schema = ss ∧ m.target_schema = ts)) →
          transform_data ms data ss ts = .error (.notFound "Schema mapping not found"))
      ∧ ∀ m, findMapping ms ss ts = some m →
          (m.mapping_rules.map Prod.fst).Nodup →
          ∃ out, transform_data ms data ss ts = .ok (out, m.mapping_id)
            ∧ ∀ t, dictGet out t = (dictGet m.mapping_rules t).bind (dictGet data) := by
  intro ms data ss ts
  constructor
  · intro h
    simp [transform_data, findMapping_eq_none ms ss ts h]
  · intro m hm hnd
    refine ⟨applyRules data m.mapping_rules [], by simp [transform_data, hm], ?_⟩
    intro t
    rw [dictGet_applyRules data m.mapping_rules [] t hnd]
    cases hr : (dictGet m.mapping_rules t).bind (dictGet data) with
    | none => rfl
    | some v => rfl

/-- Witness for C7 at concrete inputs: an empty registry rejects, and the
single mapping of mapW projects the sf field to tf. -/
theorem transform_data_correct_witness :
    transform_data [] [("sf", "v")] "s1" "s2"
        = .error (.notFound "Schema mapping not found")
    ∧ ∃ out, transform_data [mapW] [("sf", "v")] "s1" "s2" = .ok (out, 1)
        ∧ ∀ t, dictGet out t
            = (dictGet mapW.mapping_rules t).bind (dictGet [("sf", "v")]) := by
  constructor
  · exact (transform_data_correct [] [("sf", "v")] "s1" "s2").1 (by simp)
  · exact (transform_data_correct [mapW] [("sf", "v")] "s1" "s2").2 mapW rfl
      (by simp [mapW])

/-- C3 counterexample: when the transform CALL ITSELF fails (the httpx
request raising), the failure is fatal: the MessageEntry is recorded with
status failed, not completed — refuting that a failing transform call is
always non-fatal. (The handler additionally dies with a NameError while
building its response, the local ledger_entry_id never having been
bound.) -/
theorem transform_call_exception_is_fatal :
    ((send_message envTransformExn gstAB 0 0 msgAB (some "s2") false).1.message_queue.map
        MessageEntry.status = [MStatus.failed])
    ∧ (send_message envTransformExn gstAB 0 0 msgAB (some "s2") false).2
        = .error .nameError :=
  ⟨rfl, rfl⟩

/-- C3 amended: a collaborator ERROR RESPONSE (non-200 status) from the
transform, sign or telemetry call is non-fatal: the step is simply
omitted from the recorded steps (not recorded as failed), processing
continues with the untransformed data and without a signature, and such
failures alone never move the MessageEntry to status failed — but a
failure of the call itself (the request raising) aborts the try-block
and does move the entry to failed. -/
theorem step_error_responses_nonfatal :
    ∀ (env : GEnv) (st : GatewayState) (now mid : Nat) (m : GMessage)
      (sender rec : GNode) (ts ss : String) (c1 : Nat) (b1 : TransformRespBody)
      (c2 : Nat) (b2 : SignRespBody) (c3 : Nat),
      dictGet st.registered_nodes m.from_node = some sender →
      dictGet st.registered_nodes m.to_node = some rec →
      m.schema = some ss →
      sender.private_key.isSome = true →
      env.transform m.data ss ts = .resp c1 b1 → c1 ≠ 200 →
      env.sign (canonJObj m.data) m.from_node = .resp c2 b2 → c2 ≠ 200 →
      env.telemetry m.from_node mid = .resp c3 () →
      send_message env st now mid m (some ts) false =
        (⟨st.registered_nodes,
          st.message_queue ++
            [⟨mid, sha256Hex (canonMessage m), m.from_node, m.to_node, m.message_type,
              m.data, m.schema, .completed, now, [], some m.data, none, none, none,
              some now, none⟩],
          st.routing_table⟩,
         .ok ⟨mid, .completed, sha256Hex (canonMessage m), [], none⟩) := by
  intro env st now mid m sender rec ts ss c1 b1 c2 b2 c3 hf ht hss hpk htr hc1 hsg hc2 hte
  obtain ⟨pb, hpb⟩ := Option.isSome_iff_exists.mp hpk
  simp [send_message, hf, ht, pipeTry, transformStage, signStage, commitStage,
    notifyStage, hss, hpb, htr, hc1, hsg, hc2, hte]

/-- Witness for the amended C3 at a concrete input: with 404/500/500
error responses from transform, sign and telemetry, the pipeline
completes with no steps recorded, untransformed data and no signature. -/
theorem step_error_responses_nonfatal_witness :
    send_message envResp500 gstAB 0 0 msgAB (some "s2") false =
      (⟨gstAB.registered_nodes,
        gstAB.message_queue ++
          [⟨0, sha256Hex (canonMessage msgAB), msgAB.from_node, msgAB.to_node,
            msgAB.message_type, msgAB.data, msgAB.schema, .completed, 0, [],
            some msgAB.data, none, none, none, some 0, none⟩],
        gstAB.routing_table⟩,
       .ok ⟨0, .completed, sha256Hex (canonMessage msgAB), [], none⟩) :=
  step_error_responses_nonfatal envResp500 gstAB 0 0 msgAB nodeA nodeB "s2" "s1"
    404 ⟨[]⟩ 500 ⟨Blob.garbage 0⟩ 500 rfl rfl rfl rfl rfl (by decide) rfl (by decide) rfl

/-- C4 counterexample: with ledger commitment requested and the ledger
append returning an ERROR RESPONSE (status 500), the commit failure is
silently absorbed: the MessageEntry completes (status completed, the
commit step simply missing, ledger entry id null) instead of
transitioning to failed — refuting that a non-succeeding append always
fails the pipeline. -/
theorem ledger_error_response_absorbed :
    ((send_message envAppend500 gstAB 0 0 msgAB none true).1.message_queue.map
        MessageEntry.status = [MStatus.completed])
    ∧ (send_message envAppend500 gstAB 0 0 msgAB none true).2
        = .ok ⟨0, .completed, sha256Hex (canonMessage msgAB),
               [⟨"sign", "completed", 0, none⟩], none⟩ :=
  ⟨rfl, rfl⟩

/-- C4 amended: with ledger commitment requested, if the append CALL
ITSELF fails (the request to the ledger raising — unavailable or timed
out), the MessageEntry transitions to status failed with the error
message and a failure timestamp recorded and the steps already recorded
retained; but a ledger ERROR RESPONSE is silently absorbed into a
completed result with the commit step omitted and a null ledger entry
id. -/
theorem ledger_call_exception_fails_pipeline :
    ∀ (env : GEnv) (st : GatewayState) (now mid : Nat) (m : GMessage)
      (sender rec : GNode) (ts? : Option String) (s1 : List Step) (td : JObj)
      (s2 : List Step) (sig : Option Blob) (emsg : String),
      dictGet st.registered_nodes m.from_node = some sender →
      dictGet st.registered_nodes m.to_node = some rec →
      transformStage env now m ts? = .ok (s1, td) →
      signStage env now m.from_node sender td = .ok (s2, sig) →
      env.append (canonLedgerData mid m.from_node m.to_node m.message_type
          (sha256Hex (canonMessage m)) td) m.from_node sig = .exn emsg →
      send_message env st now mid m ts? true =
        (⟨st.registered_nodes,
          st.message_queue ++
            [⟨mid, sha256Hex (canonMessage m), m.from_node, m.to_node, m.message_type,
              m.data, m.schema, .failed, now, s1 ++ s2, none, none, none, some emsg,
              none, some now⟩],
          st.routing_table⟩,
         .ok ⟨mid, .failed, sha256Hex (canonMessage m), s1 ++ s2, none⟩) := by
  intro env st now mid m sender rec ts? s1 td s2 sig emsg hf ht h1 h2 hap
  simp [send_message, hf, ht, pipeTry, h1, h2, commitStage, hap]

/-- Witness for the amended C4 at a concrete input: the append call
raising moves the entry to failed with the prior sign step retained. -/
theorem ledger_call_exception_fails_pipeline_witness :
    send_message envAppendExn gstAB 0 0 msgAB none true =
      (⟨gstAB.registered_nodes,
        gstAB.message_queue ++
          [⟨0, sha256Hex (canonMessage msgAB), msgAB.from_node, msgAB.to_node,
            msgAB.message_type, msgAB.data, msgAB.schema, .failed, 0,
            [] ++ [⟨"sign", "completed", 0, none⟩], none, none, none,
            some "ledger down", none, some 0⟩],
        gstAB.routing_table⟩,
       .ok ⟨0, .failed, sha256Hex (canonMessage msgAB),
            [] ++ [⟨"sign", "completed", 0, none⟩], none⟩) :=
  ledger_call_exception_fails_pipeline envAppendExn gstAB 0 0 msgAB nodeA nodeB none
    [] msgAB.data [⟨"sign", "completed", 0, none⟩]
    (some (Blob.sigB ⟨⟨0⟩, "x"⟩)) "ledger down" rfl rfl rfl rfl rfl

theorem signStage_presence_only (env : GEnv) (now : Nat) (fn : String) (n n' : GNode)
    (td : JObj) (h : n.private_key.isSome = n'.private_key.isSome) :
    signStage env now fn n td = signStage env now fn n' td := by
  cases hn : n.private_key with
  | none =>
    cases hn' : n'.private_key with
    | none => simp [signStage, hn, hn']
    | some x => simp [hn, hn'] at h
  | some x =>
    cases hn' : n'.private_key with
    | none => simp [hn, hn'] at h
    | some y => simp [signStage, hn, hn']

theorem send_message_core (env : GEnv) (st1 st2 : GatewayState) (now mid : Nat)
    (m : GMessage) (ts? : Option String) (commit : Bool) (n1 n2 : GNode)
    (hf1 : dictGet st1.registered_nodes m.from_node = some n1)
    (hf2 : dictGet st2.registered_nodes m.from_node = some n2)
    (ht1 : (dictGet st1.registered_nodes m.to_node).isSome = true)
    (ht2 : (dictGet st2.registered_nodes m.to_node).isSome = true)
    (hq : st1.message_queue = st2.message_queue)
    (hp : pipeTry env now mid m n1 ts? commit (sha256Hex (canonMessage m))
          = pipeTry env now mid m n2 ts? commit (sha256Hex (canonMessage m))) :
    (send_message env st1 now mid m ts? commit).1.message_queue
      = (send_message env st2 now mid m ts? commit).1.message_queue
    ∧ (send_message env st1 now mid m ts? commit).2
      = (send_message env st2 now mid m ts? commit).2 := by
  obtain ⟨r1, hr1⟩ := Option.isSome_iff_exists.mp ht1
  obtain ⟨r2, hr2⟩ := Option.isSome_iff_exists.mp ht2
  simp only [send_message, hf1, hf2, hr1, hr2]
  rw [hp, hq]
  cases hres : (pipeTry env now mid m n2 ts? commit (sha256Hex (canonMessage m))).2 with
  | ok td sig leid => exact ⟨rfl, rfl⟩
  | err e lb =>
    cases lb with
    | none => exact ⟨rfl, rfl⟩
    | some l => exact ⟨rfl, rfl⟩

theorem pipeTry_presence_only (env : GEnv) (now mid : Nat) (m : GMessage)
    (ts? : Option String) (commit : Bool) (mh : String) (n n' : GNode)
    (h : n.private_key.isSome = n'.private_key.isSome) :
    pipeTry env now mid m n ts? commit mh = pipeTry env now mid m n' ts? commit mh := by
  unfold pipeTry
  cases transformStage env now m ts? with
  | error e => rfl
  | ok p =>
    obtain ⟨s1, td⟩ := p
    dsimp only
    rw [signStage_presence_only env now m.from_node n n' td h]

/-- C8 counterexample: registering node a through the gateway when the
ledger's registration response carries a generated key pair leaves the
private-key blob stored in the gateway's node table and returns it in
the gateway's own response — refuting that the gateway's stored state
and responses never contain private-key bytes. -/
theorem gateway_stores_private_key :
    (∃ n, dictGet (gw_register_node envKeyLeak ⟨[], [], []⟩ 0 "a" "ai"
            [] none).1.registered_nodes "a" = some n
        ∧ n.private_key = some (Blob.privB ⟨0⟩))
    ∧ (gw_register_node envKeyLeak ⟨[], [], []⟩ 0 "a" "ai" [] none).2
        = .ok ⟨"a", "registered", some (Blob.pubB ⟨0⟩), some (Blob.privB ⟨0⟩)⟩ :=
  ⟨⟨_, rfl, rfl⟩, rfl⟩

/-- C8 amended: the gateway stores and returns whatever private-key
material the ledger's registration response supplies, but it never uses
the raw bytes itself: message processing depends on the sender's stored
private key only through its presence (the observable outcome of a
submission is unchanged when the stored blob is replaced by any other
blob), all signing being requested from the Key Custodian's sign
endpoint. -/
theorem gateway_key_passthrough_presence_only :
    (∀ (env : GEnv) (st : GatewayState) (now : Nat) (nid nt : String)
       (caps : List String) (ep : Option String) (code : Nat) (body : LRegRespBody),
       env.lregister nid = .resp code body →
       ∃ st', gw_register_node env st now nid nt caps ep
                = (st', .ok ⟨nid, "registered", body.public_key, body.private_key⟩)
         ∧ ∃ n, dictGet st'.registered_nodes nid = some n
             ∧ n.private_key = body.private_key ∧ n.public_key = body.public_key)
    ∧ ∀ (env : GEnv) (st : GatewayState) (now mid : Nat) (m : GMessage)
        (ts? : Option String) (commit : Bool) (n : GNode) (b b' : Blob),
        dictGet st.registered_nodes m.from_node = some n →
        n.private_key = some b →
        ((send_message env (withSenderKey st m.from_node n b') now mid m
            ts? commit).1.message_queue
           = (send_message env st now mid m ts? commit).1.message_queue)
        ∧ (send_message env (withSenderKey st m.from_node n b') now mid m
            ts? commit).2
           = (send_message env st now mid m ts? commit).2 := by
  constructor
  · intro env st now nid nt caps ep code body hreg
    have heq : gw_register_node env st now nid nt caps ep
        = (⟨dictSet st.registered_nodes nid
              ⟨nid, nt, caps, ep, body.public_key, body.private_key, now, "active"⟩,
            st.message_queue,
            caps.foldl (fun acc c =>
              match dictGet acc c with
              | none => dictSet acc c [nid]
              | some l => dictSet acc c (l ++ [nid])) st.routing_table⟩,
           .ok ⟨nid, "registered", body.public_key, body.private_key⟩) := by
      simp [gw_register_node, hreg]
    exact ⟨_, heq, ⟨_, dictGet_dictSet_self _ _ _, rfl, rfl⟩⟩
  · intro env st now mid m ts? commit n b b' hf hb
    have hf2 : dictGet (withSenderKey st m.from_node n b').registered_nodes m.from_node
        = some ⟨n.node_id, n.node_type, n.capabilities, n.endpoint, n.public_key,
                some b', n.registered_at, n.status⟩ := dictGet_dictSet_self _ _ _
    have hpipe : ∀ mh, pipeTry env now mid m
        ⟨n.node_id, n.node_type, n.capabilities, n.endpoint, n.public_key, some b',
         n.registered_at, n.status⟩ ts? commit mh
          = pipeTry env now mid m n ts? commit mh := by
      intro mh
      exact pipeTry_presence_only env now mid m ts? commit mh _ n (by simp [hb])
    have hq : (withSenderKey st m.from_node n b').message_queue = st.message_queue := rfl
    by_cases hto : m.to_node = m.from_node
    · exact send_message_core env (withSenderKey st m.from_node n b') st now mid m
        ts? commit _ n hf2 hf (by rw [hto, hf2]; rfl) (by rw [hto, hf]; rfl) hq
        (hpipe _)
    · have ht2 : dictGet (withSenderKey st m.from_node n b').registered_nodes m.to_node
          = dictGet st.registered_nodes m.to_node :=
        dictGet_dictSet_ne _ _ _ _ hto
      cases htv : dictGet st.registered_nodes m.to_node with
      | none =>
        constructor <;> simp [send_message, hf, hf2, ht2, htv, hq]
      | some r =>
        exact send_message_core env (withSenderKey st m.from_node n b') st now mid m
          ts? commit _ n hf2 hf (by rw [ht2, htv]; rfl) (by rw [htv]; rfl) hq
          (hpipe _)

/-- Witness for the amended C8 at concrete inputs: the key pair of the
ledger response is stored and returned verbatim, and replacing node a's
stored private-key blob by garbage changes neither the recorded message
history nor the response of a submission. -/
theorem gateway_key_passthrough_presence_only_witness :
    (∃ st', gw_register_node envKeyLeak ⟨[], [], []⟩ 0 "c" "ai" [] none
              = (st', .ok ⟨"c", "registered", some (Blob.pubB ⟨0⟩),
                           some (Blob.privB ⟨0⟩)⟩)
       ∧ ∃ n, dictGet st'.registered_nodes "c" = some n
           ∧ n.private_key = some (Blob.privB ⟨0⟩)
           ∧ n.public_key = some (Blob.pubB ⟨0⟩))
    ∧ ((send_message envOk (withSenderKey gstAB "a" nodeA (Blob.garbage 9)) 0 0 msgAB
          none true).1.message_queue
         = (send_message envOk gstAB 0 0 msgAB none true).1.message_queue)
    ∧ (send_message envOk (withSenderKey gstAB "a" nodeA (Blob.garbage 9)) 0 0 msgAB
        none true).2
       = (send_message envOk gstAB 0 0 msgAB none true).2 := by
  refine ⟨?_, ?_, ?_⟩
  · exact gateway_key_passthrough_presence_only.1 envKeyLeak ⟨[], [], []⟩ 0 "c" "ai"
      [] none 200 ⟨some (Blob.pubB ⟨0⟩), some (Blob.privB ⟨0⟩)⟩ rfl
  · exact (gateway_key_passthrough_presence_only.2 envOk gstAB 0 0 msgAB none true
      nodeA (Blob.privB ⟨0⟩) (Blob.garbage 9) rfl rfl).1
  · exact (gateway_key_passthrough_presence_only.2 envOk gstAB 0 0 msgAB none true
      nodeA (Blob.privB ⟨0⟩) (Blob.garbage 9) rfl rfl).2

/-- C9 counterexample: node a is already registered with the custodian,
yet registering the same id with undecodable supplied key material fails
with the invalid-key error — refuting that registering an
already-registered node id never fails. -/
theorem reregister_invalid_key_fails :
    (dictGet lstA.node_keys "a").isSome = true
    ∧ register_node lstA 1 ⟨5⟩ "a" (some (Blob.garbage 0))
        = .error (.badRequest "Invalid public key") :=
  ⟨rfl, rfl⟩

/-- C9 amended: re-registration is never rejected on account of the
existing registration: whenever the supplied key material decodes (or
none is supplied and a fresh pair is generated), register succeeds and
unconditionally replaces the stored key record for that node id, leaving
all other nodes' records and the ledger untouched, so all later sign and
verify operations for the id are performed under the new key; only
undecodable supplied key material fails, exactly as for a fresh id. -/
theorem reregister_replaces_key :
    ∀ (st : LedgerState) (now : Nat) (gen : PrivKey) (nid : String) (pk : Option Blob),
      (pk = none ∨ ∃ k, pk = some (Blob.pubB k)) →
      ∃ st' resp, register_node st now gen nid pk = .ok (st', resp)
        ∧ st'.ledger_entries = st.ledger_entries
        ∧ (∃ ki : KeyInfo, dictGet st'.node_keys nid = some ki ∧ ki.registered_at = now
            ∧ (pk = none → ki = ⟨Blob.pubB (pubOf gen), some (Blob.privB gen), now⟩)
            ∧ ∀ k, pk = some (Blob.pubB k) → ki = ⟨Blob.pubB k, none, now⟩)
        ∧ (∀ nid', nid' ≠ nid → dictGet st'.node_keys nid' = dictGet st.node_keys nid')
        ∧ (pk = none → ∀ data,
             sign_data st' data nid = .ok ⟨data, Blob.sigB (edSign gen data), nid⟩
             ∧ verify_signature st' data (Blob.sigB (edSign gen data)) nid = .ok true) := by
  intro st now gen nid pk h
  cases h with
  | inl h =>
    subst h
    refine ⟨_, _, rfl, rfl,
            ⟨⟨Blob.pubB (pubOf gen), some (Blob.privB gen), now⟩,
             dictGet_dictSet_self _ _ _, rfl, ?_, ?_⟩,
            fun nid' hne => dictGet_dictSet_ne _ _ _ _ hne, ?_⟩
    · intro _
      rfl
    · intro k hk
      cases hk
    · intro _ data
      constructor
      · simp [sign_data, dictGet_dictSet_self, decodePriv]
      · simp [verify_signature, dictGet_dictSet_self, tryVerify, decodePub, decodeSig,
          edVerify, edSign]
  | inr h =>
    obtain ⟨k, hk⟩ := h
    subst hk
    refine ⟨_, _, rfl, rfl,
            ⟨⟨Blob.pubB k, none, now⟩, dictGet_dictSet_self _ _ _, rfl, ?_, ?_⟩,
            fun nid' hne => dictGet_dictSet_ne _ _ _ _ hne, ?_⟩
    · intro hc
      cases hc
    · intro k' hk'
      have hkk : k = k' := by
        injection hk' with h1
        injection h1
      rw [hkk]
    · intro hc
      cases hc

/-- Witness for the amended C9 at a concrete input: re-registering node a
via the generate path succeeds and rotates its stored key pair. -/
theorem reregister_replaces_key_witness :
    ∃ st' resp, register_node lstA 1 ⟨7⟩ "a" none = .ok (st', resp)
      ∧ dictGet st'.node_keys "a"
          = some ⟨Blob.pubB ⟨7⟩, some (Blob.privB ⟨7⟩), 1⟩ := by
  obtain ⟨st', resp, h1, _, ⟨ki, hget, _, hnone, _⟩, _, _⟩ :=
    reregister_replaces_key lstA 1 ⟨7⟩ "a" none (Or.inl rfl)
  refine ⟨st', resp, h1, ?_⟩
  rw [hget, hnone rfl]
  rfl

end AIIP
